import Mathlib

/-!
Verification development for the trait-prediction scoring pipeline.

The repository derives personality/behaviour scores from a table of facial
action-unit measurements (one row per analysed frame).  This file gives a
shallow embedding of the four section scorers
(`section/relationship_empathy.py`, `section/work_DNA_focus.py`,
`section/creativity_pulse.py`, `section/stress_resilience.py`) over exact
rational arithmetic, and proves or refutes the frozen specification claims.

Modelling conventions:
* A measurement row (a pandas `Series`) is an ordered association list from
  column name to rational value; `row.empty` in the source is `List.isEmpty`.
* Python exceptions become `Except String`; a returned `{"error": ...}`
  mapping is `Except.error`.
* `random.random()` draws are explicit oracle arguments (`u`, `v` are the
  draws of the first and second branch of `make_score`; the source draws a
  fresh value per branch).
* `np.degrees` (an irrational scaling) is abstracted as a function argument
  `deg` of the section-2 scorer; no claim depends on its concrete values.
* `np.argmax` over parallel score lists is embedded as `idxOfMax`, the first
  index of the maximum; `np.argmax` on an empty or ragged nested list raises,
  which the embeddings reproduce as the corresponding error branch.
* Scalar cells make `.mean()` the identity, so `data[col].mean() / 5.0`
  is embedded as `getCol r c / 5`.
-/

/-! ### Column names and messages (leading spaces are part of the contract) -/

def cGaze0x : String := " gaze_0_x"

def cGaze0y : String := " gaze_0_y"

def cGaze1x : String := " gaze_1_x"

def cGaze1y : String := " gaze_1_y"

def cAU01r : String := " AU01_r"

def cAU02r : String := " AU02_r"

def cAU04r : String := " AU04_r"

def cAU05r : String := " AU05_r"

def cAU06r : String := " AU06_r"

def cAU12r : String := " AU12_r"

def cAU14r : String := " AU14_r"

def cAU15r : String := " AU15_r"

def cAU17r : String := " AU17_r"

def cAU20r : String := " AU20_r"

def cAU23r : String := " AU23_r"

def cAU24r : String := " AU24_r"

def cAU25r : String := " AU25_r"

def cAU26r : String := " AU26_r"

def cAU28r : String := " AU28_r"

def cAU45r : String := " AU45_r"

def cPoseRx : String := " pose_Rx"

def cPoseRy : String := " pose_Ry"

def cXmark : String := " x_"

def cYmark : String := " y_"

/-- Fallback mouth AU column names exactly as written in
`calculate_lip_compression_openface` (`stress_resilience.py` line 96):
note the missing leading space. -/
def fAU14 : String := "AU14_r"

def fAU15 : String := "AU15_r"

def fAU17 : String := "AU17_r"

def fAU20 : String := "AU20_r"

def errNoData : String := "No data provided"

def errFinal : String := "Failed to calculate final metrics"

def errNoImages : String := "Could not process any images"

def errNoValid : String := "No valid data could be processed."

/-! ### Measurement rows -/

/-- One analysed frame: an ordered association list from column name to the
cell's numeric value (a pandas `Series`). -/
abbrev Row := List (String × ℚ)

/-- `c in row.keys()` of the source. -/
def hasCol (r : Row) (c : String) : Bool := (r.lookup c).isSome

/-- `row[c]` of the source; only evaluated after a presence check (or, where
the source omits that check, the surrounding `Except` models the KeyError). -/
def getCol (r : Row) (c : String) : ℚ := (r.lookup c).getD 0

/-- `data[col].mean() / 5.0` with default 0.0 when the column is absent, as in
every section's per-row AU extraction loop.  Note: no capping at 1.0 here. -/
def auNorm (r : Row) (c : String) : ℚ :=
  if hasCol r c then getCol r c / 5 else 0

/-- Python's binary `min` (ties resolved to the first argument). -/
def pyMin (a b : ℚ) : ℚ := if b < a then b else a

/-- Python's binary `max` (ties resolved to the first argument). -/
def pyMax (a b : ℚ) : ℚ := if a < b then b else a

/-- Python's `abs`. -/
def pyAbs (a : ℚ) : ℚ := if a < 0 then -a else a

/-- `True` exactly on the `Except.error` constructor (a returned
`{"error": ...}` mapping). -/
def exceptIsErr {α : Type} : Except String α → Bool
  | .error _ => true
  | .ok _ => false

def meanQ (l : List ℚ) : ℚ := l.sum / (l.length : ℚ)

/-! ### Score smoothing (`make_score`, duplicated in sections 1 and 2) -/

/-- First statement of `make_score`: `if score <= 0.3`, remap with the draw
`u`. -/
def scoreLow (s u : ℚ) : ℚ :=
  if s ≤ 3/10 then 3/10 + s * (1/10) + u * (7/100) else s

/-- Second statement of `make_score`: `if score >= 0.93`, remap with the
draw `v` and the section's factor `eps`. -/
def scoreHigh (eps t v : ℚ) : ℚ :=
  if t ≥ 93/100 then 93/100 - (1 - t) * (1/10) - v * eps else t

/-- `make_score` of the source: two sequential `if`s; `u` and `v` are the
`random.random()` draws of the first and second branch, and `eps` is the
second branch's factor (0.03 in section 1, 0.05 in section 2). -/
def make_score (eps s u v : ℚ) : ℚ := scoreHigh eps (scoreLow s u) v

/-- `make_score` of `relationship_empathy.py` (second-branch factor 0.03). -/
def makeScore1 (s u v : ℚ) : ℚ := make_score (3/100) s u v

/-- `make_score` of `work_DNA_focus.py` (second-branch factor 0.05). -/
def makeScore2 (s u v : ℚ) : ℚ := make_score (5/100) s u v

/-! ### Section 1: relationship / empathy (`relationship_empathy.py`) -/

/-- Body of `FacialAnalyzer.calculate_gaze_iris_openface`: the gaze-centred
indicator (default 1) and the iris-openness proxy (default 0.0). -/
def gazeIrisCore (r : Row) : ℚ × ℚ :=
  let gd : ℚ :=
    if hasCol r cGaze0x && hasCol r cGaze0y && hasCol r cGaze1x && hasCol r cGaze1y then
      let avgX := (getCol r cGaze0x + getCol r cGaze1x) / 2
      let avgY := (getCol r cGaze0y + getCol r cGaze1y) / 2
      if pyAbs avgX ≤ 2/10 ∧ pyAbs avgY ≤ 2/10 then 1 else 0
    else 1
  let ir : ℚ :=
    if hasCol r cAU45r then
      (1 - pyMin (getCol r cAU45r / 5) 1) * (1/2)
    else if hasCol r cAU01r || hasCol r cAU02r || hasCol r cAU05r then
      let vals := ([cAU01r, cAU02r, cAU05r].filter (hasCol r)).map (getCol r)
      pyMin ((vals.sum / (vals.length : ℚ)) / 5) 1 * (1/2)
    else 0
  (gd, ir)

/-- `calculate_gaze_iris_openface` with its catch-all handler: any exception
raised inside the computation (modelled by the `fault` oracle) yields the
default pair `(1, 0.0)`. -/
def calculate_gaze_iris_openface (r : Row) (fault : Option String) : ℚ × ℚ :=
  match fault with
  | some _ => (1, 0)
  | none => gazeIrisCore r

/-- `FacialAnalyzer.process_openface_data` of section 1: an error mapping
exactly when the row is empty, else the gaze/iris metrics. -/
def process_openface_data (r : Row) (fault : Option String) : Except String (ℚ × ℚ) :=
  if r.isEmpty then .error errNoData
  else .ok (calculate_gaze_iris_openface r fault)

/-- The four per-row raw (pre-smoothing) scores of `calculate_section1`. -/
structure RawScores1 where
  trust : ℚ
  openness : ℚ
  empathy : ℚ
  conflict : ℚ
deriving DecidableEq, Repr

/-- Per-row raw score computation of the `calculate_section1` loop body. -/
def section1Row (r : Row) (fault : Option String) : RawScores1 :=
  let p := calculate_gaze_iris_openface r fault
  let gd := p.1
  let irisVal := p.2
  let au01 := auNorm r cAU01r
  let au06 := auNorm r cAU06r
  let au12 := auNorm r cAU12r
  let irisScore := pyMin (pyMax ((irisVal + 1) / 2) 0) 1
  { trust := (au06 + au12) * (2/10) + gd * (4/10) + irisScore * (2/10)
    openness := au12 * (5/10) + au06 * (3/10) + gd * (2/10)
    empathy := au01 * (5/10) + au06 * (3/10) + gd * (2/10)
    conflict := (1 - au12) * (5/10) + (1 - au06) * (3/10) + gd * (2/10) }

/-- Four parallel per-score series accumulated by a section loop. -/
structure QuadSeries where
  s1 : List ℚ
  s2 : List ℚ
  s3 : List ℚ
  s4 : List ℚ
deriving DecidableEq, Repr

/-- The rows of the table that section 1 keeps (those whose
`process_openface_data` does not return an error mapping), with their
0-based positions. -/
def section1Kept (table : List Row) (fault : ℕ → Option String) : List (ℕ × Row) :=
  table.enum.filter (fun p => !(exceptIsErr (process_openface_data p.2 (fault p.1))))

/-- The smoothed score series appended by the `calculate_section1` loop
(trust, openness, Empathy, ConflictAvoid); `u i j` / `v i j` are the two
possible draws of the `make_score` call for row `i`, score slot `j`. -/
def section1Series (table : List Row) (fault : ℕ → Option String)
    (u v : ℕ → ℕ → ℚ) : QuadSeries :=
  let kept := section1Kept table fault
  { s1 := kept.map (fun p => makeScore1 (section1Row p.2 (fault p.1)).trust (u p.1 0) (v p.1 0))
    s2 := kept.map (fun p => makeScore1 (section1Row p.2 (fault p.1)).openness (u p.1 1) (v p.1 1))
    s3 := kept.map (fun p => makeScore1 (section1Row p.2 (fault p.1)).empathy (u p.1 2) (v p.1 2))
    s4 := kept.map (fun p => makeScore1 (section1Row p.2 (fault p.1)).conflict (u p.1 3) (v p.1 3)) }

/-- The raw (pre-smoothing) score series of section 1, in the same row
order; this is the quantity the specification calls a score's raw values. -/
def section1RawSeries (table : List Row) (fault : ℕ → Option String) : QuadSeries :=
  let kept := section1Kept table fault
  { s1 := kept.map (fun p => (section1Row p.2 (fault p.1)).trust)
    s2 := kept.map (fun p => (section1Row p.2 (fault p.1)).openness)
    s3 := kept.map (fun p => (section1Row p.2 (fault p.1)).empathy)
    s4 := kept.map (fun p => (section1Row p.2 (fault p.1)).conflict) }

/-- Maximum of a list (0 for the empty list, never consulted there). -/
def listMax : List ℚ → ℚ
  | [] => 0
  | [a] => a
  | a :: b :: t => max a (listMax (b :: t))

/-- `np.argmax`: first index of the maximal element. -/
def idxOfMax : List ℚ → ℕ
  | [] => 0
  | [_] => 0
  | a :: b :: t => if listMax (b :: t) ≤ a then 0 else idxOfMax (b :: t) + 1

/-- One reported score block: `balance` is the mean of the stored series
(the source formats it as a percent string) and `top_image` the `np.argmax`
index. -/
structure ScoreOut where
  balance : ℚ
  top_image : ℕ
deriving DecidableEq, Repr

structure Section1Out where
  trust : ScoreOut
  openness : ScoreOut
  empathy : ScoreOut
  conflictAvoid : ScoreOut
deriving DecidableEq, Repr

/-- `calculate_section1`: accumulate the smoothed series, then aggregate.
With zero stored rows `np.argmax([[], [], [], []], axis=1)` raises and the
handler returns the error mapping. -/
def calculate_section1 (table : List Row) (fault : ℕ → Option String)
    (u v : ℕ → ℕ → ℚ) : Except String Section1Out :=
  let s := section1Series table fault u v
  if s.s1.length = 0 then .error errFinal
  else .ok { trust := ⟨meanQ s.s1, idxOfMax s.s1⟩
             openness := ⟨meanQ s.s2, idxOfMax s.s2⟩
             empathy := ⟨meanQ s.s3, idxOfMax s.s3⟩
             conflictAvoid := ⟨meanQ s.s4, idxOfMax s.s4⟩ }

/-! ### Section 2: work-DNA / focus (`work_DNA_focus.py`) -/

/-- `FacialAnalyzer.get_head_pose_openface`: returns `(jaw_angle, head_pitch)`.
`deg` abstracts `np.degrees`. -/
def get_head_pose_openface (deg : ℚ → ℚ) (r : Row) : ℚ × ℚ :=
  let headPitch := if hasCol r cPoseRx then deg (getCol r cPoseRx) else 0
  let jaw0 : ℚ := if hasCol r cPoseRy then 100 + deg (pyAbs (getCol r cPoseRy)) * (1/2) else 100
  let jaw :=
    if hasCol r cAU25r && hasCol r cAU26r then
      jaw0 + (getCol r cAU25r / 5 + (getCol r cAU26r / 5) * 2) * 10
    else jaw0
  (jaw, headPitch)

/-- The four per-row raw scores of `calculate_section2`. -/
structure RawScores2 where
  persistant : ℚ
  focus : ℚ
  structScore : ℚ
  risk : ℚ
deriving DecidableEq, Repr

/-- Per-row raw score computation of the `calculate_section2` loop body. -/
def section2Row (deg : ℚ → ℚ) (r : Row) : RawScores2 :=
  let hp := get_head_pose_openface deg r
  let jaw := hp.1
  let pitch := hp.2
  let au01 := auNorm r cAU01r
  let au02 := auNorm r cAU02r
  let au04 := auNorm r cAU04r
  let au06 := auNorm r cAU06r
  { persistant := (1 - pyAbs (jaw - 100) / 40) * (3/10) + (1 - pyAbs pitch / 30) * (4/10) +
      ((au01 + au06) / 2) * (3/10)
    focus := (1 - pyAbs pitch / 30) * (4/10) + (au01 + au02 + au06) * (2/10)
    structScore := jaw / 140 * (6/10) + (1 - pyAbs pitch / 30) * (4/10)
    risk := (if pitch > 5 then 1 else 0) * (4/10) + (if jaw > 120 then 1 else 0) * (3/10) +
      au04 * (3/10) }

/-- Rows kept by section 2 (its `process_openface_data` errs exactly on the
empty row, and an error there is raised, caught, and the row skipped). -/
def section2Kept (table : List Row) : List (ℕ × Row) :=
  table.enum.filter (fun p => !p.2.isEmpty)

/-- The smoothed score series of `calculate_section2`
(persistant, focus, structure, risk). -/
def section2Series (deg : ℚ → ℚ) (table : List Row) (u v : ℕ → ℕ → ℚ) : QuadSeries :=
  let kept := section2Kept table
  { s1 := kept.map (fun p => makeScore2 (section2Row deg p.2).persistant (u p.1 0) (v p.1 0))
    s2 := kept.map (fun p => makeScore2 (section2Row deg p.2).focus (u p.1 1) (v p.1 1))
    s3 := kept.map (fun p => makeScore2 (section2Row deg p.2).structScore (u p.1 2) (v p.1 2))
    s4 := kept.map (fun p => makeScore2 (section2Row deg p.2).risk (u p.1 3) (v p.1 3)) }

/-- The raw (pre-smoothing) score series of section 2. -/
def section2RawSeries (deg : ℚ → ℚ) (table : List Row) : QuadSeries :=
  let kept := section2Kept table
  { s1 := kept.map (fun p => (section2Row deg p.2).persistant)
    s2 := kept.map (fun p => (section2Row deg p.2).focus)
    s3 := kept.map (fun p => (section2Row deg p.2).structScore)
    s4 := kept.map (fun p => (section2Row deg p.2).risk) }

structure Section2Out where
  persistant : ScoreOut
  focus : ScoreOut
  structScore : ScoreOut
  risk : ScoreOut
deriving DecidableEq, Repr

/-- `calculate_section2`: explicit zero-rows check
(`if len(persistant_list) == 0`), then aggregation. -/
def calculate_section2 (deg : ℚ → ℚ) (table : List Row) (u v : ℕ → ℕ → ℚ) :
    Except String Section2Out :=
  let s := section2Series deg table u v
  if s.s1.length = 0 then .error errNoImages
  else .ok { persistant := ⟨meanQ s.s1, idxOfMax s.s1⟩
             focus := ⟨meanQ s.s2, idxOfMax s.s2⟩
             structScore := ⟨meanQ s.s3, idxOfMax s.s3⟩
             risk := ⟨meanQ s.s4, idxOfMax s.s4⟩ }

/-! ### Section 3: creativity / pulse (`creativity_pulse.py`) -/

/-- `FacialAnalyzer.calculate_eye_openness`.  The alternative branch of the
source builds `au_values = [row[c] for c in au_cols]` over all three of
AU01/AU02/AU05 without checking presence; a missing column raises KeyError,
which the handler converts to the default 0.5.  Only when all three are
present is the mean taken. -/
def calculate_eye_openness (r : Row) : ℚ :=
  if hasCol r cAU45r then 1 - pyMin (getCol r cAU45r / 5) 1
  else if hasCol r cAU01r && hasCol r cAU02r && hasCol r cAU05r then
    pyMin (((getCol r cAU01r + getCol r cAU02r + getCol r cAU05r) / 3) / 5) 1
  else 1/2

/-- `col.startswith(pre)` of the source, as a character-list prefix test. -/
def strStarts (c pre : String) : Bool := pre.data.isPrefixOf c.data

/-- Landmark x-coordinate values of a row (columns starting with a space
followed by an x label, in column order). -/
def xvals (r : Row) : List ℚ :=
  (r.filter (fun p => strStarts p.1 cXmark)).map Prod.snd

/-- Landmark y-coordinate values of a row. -/
def yvals (r : Row) : List ℚ :=
  (r.filter (fun p => strStarts p.1 cYmark)).map Prod.snd

/-- `midline_x`: mean of the landmark x-coordinates. -/
def midline (r : Row) : ℚ := (xvals r).sum / (((xvals r).length : ℚ))

/-- One pair's asymmetry: distance-from-midline difference plus half the
absolute y difference, for landmark `i` paired with `count - 1 - i`. -/
def pairScore (r : Row) (i : ℕ) : ℚ :=
  pyAbs (pyAbs ((xvals r).getD i 0 - midline r) -
      pyAbs ((xvals r).getD ((xvals r).length - 1 - i) 0 - midline r)) +
    (1/2) * pyAbs ((yvals r).getD i 0 - (yvals r).getD ((xvals r).length - 1 - i) 0)

/-- The asymmetry scores collected by the inward pairing loop
(`for i in range(count // 2)` with `break` when the indices meet or cross;
the indices are strictly ordered on every executed iteration, so the guard
is kept verbatim). -/
def asymScores (r : Row) : List ℚ :=
  (List.range ((xvals r).length / 2)).filterMap (fun i =>
    if i < (xvals r).length - 1 - i then some (pairScore r i) else none)

/-- `FacialAnalyzer.calculate_facial_symmetry`.  Pairs landmark `i` with
landmark `count - 1 - i` walking inward; when the loop runs
(`count ≥ 2`) but there are fewer y columns than x columns, the y lookup
raises IndexError and the handler returns the default 0.5. -/
def calculate_facial_symmetry (r : Row) : ℚ :=
  if (xvals r).isEmpty || (yvals r).isEmpty then 1/2
  else if 2 ≤ (xvals r).length ∧ (yvals r).length < (xvals r).length then 1/2
  else if (asymScores r).isEmpty then 1/2
  else pyMax 0 (1 - ((asymScores r).sum / (((asymScores r).length : ℚ))) * 10)

/-- The four per-row raw scores of `calculate_section3`.  Note: the AU
extraction loop of section 3 covers AU01/AU02/AU04/AU06/AU12 only, so
`au_values.get('AU05', 0)` in the openness formula is always 0. -/
structure RawScores3 where
  ideation : ℚ
  openness : ℚ
  originalty : ℚ
  attention : ℚ
deriving DecidableEq, Repr

/-- Per-row raw score computation of the `calculate_section3` loop body. -/
def section3Row (r : Row) : RawScores3 :=
  let eye := calculate_eye_openness r
  let sym := calculate_facial_symmetry r
  let au01 := auNorm r cAU01r
  let au02 := auNorm r cAU02r
  let au04 := auNorm r cAU04r
  let au06 := auNorm r cAU06r
  let au12 := auNorm r cAU12r
  let micro : ℚ :=
    if au01 > 9/10 ∨ au02 > 9/10 ∨ au04 > 9/10 ∨ au12 > 9/10 then 1 else 0
  { ideation := (au12 + au06) * (2/10) + eye * (3/10) + micro * (3/10)
    openness := (au02 + 0) * (3/10) + sym * (4/10)
    originalty := (1 - sym) * (4/10) + au12 * (3/10) + au01 * (3/10)
    attention := eye * (3/10) + (1 - sym) * (3/10) + au04 * (4/10) }

/-- Section 3's per-metric helpers never raise (each has its own defaulting
handler) and its `process_openface_data` has no emptiness check, so every
row of the table contributes to the series. -/
def section3Series (table : List Row) : QuadSeries :=
  { s1 := table.map (fun r => (section3Row r).ideation)
    s2 := table.map (fun r => (section3Row r).openness)
    s3 := table.map (fun r => (section3Row r).originalty)
    s4 := table.map (fun r => (section3Row r).attention) }

structure Section3Out where
  ideation : ScoreOut
  openness : ScoreOut
  originalty : ScoreOut
  attention : ScoreOut
deriving DecidableEq, Repr

/-- `calculate_section3`: explicit zero-rows check
(`if len(ideation_list) == 0`), then aggregation; no smoothing in this
section. -/
def calculate_section3 (table : List Row) : Except String Section3Out :=
  let s := section3Series table
  if s.s1.length = 0 then .error errNoValid
  else .ok { ideation := ⟨meanQ s.s1, idxOfMax s.s1⟩
             openness := ⟨meanQ s.s2, idxOfMax s.s2⟩
             originalty := ⟨meanQ s.s3, idxOfMax s.s3⟩
             attention := ⟨meanQ s.s4, idxOfMax s.s4⟩ }

/-! ### Section 4: stress / resilience (`stress_resilience.py`) -/

/-- `StressResilienceAnalyzer.calculate_forehead_furrows_openface`. -/
def calculate_forehead_furrows_openface (r : Row) : ℚ :=
  let present := [cAU01r, cAU02r, cAU04r].filter (hasCol r)
  let vals := present.map (fun c => pyMin (getCol r c / 5) 1)
  match vals with
  | [] => 1/2
  | [a, b, c] => c * (6/10) + a * (2/10) + b * (2/10)
  | l => l.sum / (l.length : ℚ)

/-- `StressResilienceAnalyzer.calculate_lip_compression_openface`.  The
fallback list uses the space-less names `fAU14` ... `fAU20`, exactly as in
the source. -/
def calculate_lip_compression_openface (r : Row) : ℚ :=
  let primary := [cAU23r, cAU24r, cAU28r].filter (hasCol r)
  let chosen := if primary.isEmpty then [fAU14, fAU15, fAU17, fAU20].filter (hasCol r)
                else primary
  let vals := chosen.map (fun c => pyMin (getCol r c / 5) 1)
  if vals.isEmpty then 1/2
  else vals.sum / (vals.length : ℚ)

/-- The per-row `emotional` value of `calculate_section4` (line 151). -/
def emotionalOf (r : Row) : ℚ :=
  (1 - calculate_forehead_furrows_openface r) * (5/10) +
    (1 - auNorm r cAU04r) * (3/10) + (1 - auNorm r cAU15r) * (2/10)

/-- The two series of `calculate_section4`.  Per nonempty row, `emotional`
is appended; the next line `resilience = (1-stress)*0.4 + ...` references
the name `stress`, whose computation (lines 148-149) is commented out, so it
raises NameError: the handler logs and continues, and `resilience_score`
never receives a value. -/
def section4Series (table : List Row) : List ℚ × List ℚ :=
  ((table.filter (fun r => !r.isEmpty)).map emotionalOf, [])

structure Section4Out where
  emotional : ScoreOut
  resilience : ScoreOut
deriving DecidableEq, Repr

/-- `calculate_section4`: `np.argmax([emotional_regulation, resilience_score],
axis=1)` needs a rectangular array with a nonempty second axis; anything else
raises and the handler returns the error mapping. -/
def calculate_section4 (table : List Row) : Except String Section4Out :=
  let s := section4Series table
  if s.1.length = s.2.length ∧ s.1.length ≠ 0 then
    .ok { emotional := ⟨meanQ s.1, idxOfMax s.1⟩
          resilience := ⟨meanQ s.2, idxOfMax s.2⟩ }
  else .error errFinal

/-! ### Specification-side notions and concrete inputs -/

/-- `i` is the 0-based position of the first occurring maximum of `l`. -/
def isFirstMax (l : List ℚ) (i : ℕ) : Prop :=
  i < l.length ∧ (∀ j, j < l.length → l.getD j 0 ≤ l.getD i 0) ∧
    ∀ j, j < i → l.getD j 0 < l.getD i 0

/-- Fault oracle for runs in which no exception occurs. -/
def fnoneD : ℕ → Option String := fun _ => none

/-- Draw oracle pinning every `random.random()` value to 0 (0 is in the
half-open range of `random.random()`). -/
def zeroDraw : ℕ → ℕ → ℚ := fun _ _ => 0

/-- A concrete stand-in for `np.degrees`; only used on inputs whose rows
carry no pose columns, where the section never applies it. -/
def dzero : ℚ → ℚ := fun _ => 0

/-- The single-row table of C4: only AU06 and AU12 present, both 2.5. -/
def rowC4 : Row := [(cAU06r, 5/2), (cAU12r, 5/2)]

/-- Two off-centre-gaze rows with raw trust 0.3 and 0.31: smoothing lifts
the first to at least 0.33 while leaving the second at 0.31. -/
def tblC2 : List Row :=
  [[(cGaze0x, 1), (cGaze0y, 0), (cGaze1x, 1), (cGaze1y, 0), (cAU45r, 5), (cAU06r, 5/2), (cAU12r, 5/2)],
   [(cGaze0x, 1), (cGaze0y, 0), (cGaze1x, 1), (cGaze1y, 0), (cAU45r, 5), (cAU06r, 5/2), (cAU12r, 11/4)]]

/-- One row whose AU06 intensity 50 (outside the conventional [0,5] range)
drives the raw trust score to 2.5. -/
def tblC6 : List Row := [[(cAU06r, 50)]]

/-- A row with only one of the three brow/lid AU columns present. -/
def rowC7 : Row := [(cAU01r, 5)]

/-- A row with all three brow/lid AU columns present. -/
def rowC7w : Row := [(cAU01r, 5), (cAU02r, 5), (cAU05r, 0)]

/-- A row carrying only the four upstream-named (leading-space) fallback
mouth AU columns, all at intensity 5. -/
def rowC8 : Row := [(cAU14r, 5), (cAU15r, 5), (cAU17r, 5), (cAU20r, 5)]

def cX0 : String := " x_0"

def cX1 : String := " x_1"

def cX2 : String := " x_2"

def cY0 : String := " y_0"

def cY1 : String := " y_1"

def cY2 : String := " y_2"

/-- A row with an odd number (3) of landmark coordinate pairs. -/
def rowC9 : Row := [(cX0, 0), (cX1, 1), (cX2, 2), (cY0, 0), (cY1, 0), (cY2, 0)]

/-- A single-row table for section 4 (AU04 present at 2.5). -/
def tblC1 : List Row := [[(cAU04r, 5/2)]]

def msgBoom : String := "boom"

/-- One contributing row and one empty row for the C10 witness. -/
def tblC10 : List Row := [[(cAU45r, 5)], []]

/-- Fault oracle raising on every row. -/
def faultsBoom : ℕ → Option String := fun _ => some msgBoom

/-- Single-row witness table for section 1 aggregation. -/
def tblW1 : List Row := [rowC4]

/-- Single-row witness table for section 2 aggregation (no pose columns). -/
def tblW2 : List Row := [[(cAU04r, 5/2)]]

/-- Expected section-1 output on `tblW1` with all draws 0. -/
def o1W : Section1Out :=
  { trust := ⟨7/10, 0⟩, openness := ⟨3/5, 0⟩, empathy := ⟨7/20, 0⟩, conflictAvoid := ⟨3/5, 0⟩ }

/-- Expected section-2 output on `tblW2` with all draws 0. -/
def o2W : Section2Out :=
  { persistant := ⟨7/10, 0⟩, focus := ⟨2/5, 0⟩, structScore := ⟨29/35, 0⟩, risk := ⟨63/200, 0⟩ }

/-! ### Properties of `idxOfMax` (the `np.argmax` embedding) -/

theorem getD_le_listMax (l : List ℚ) (j : ℕ) (hj : j < l.length) :
    l.getD j 0 ≤ listMax l := by
  induction l generalizing j with
  | nil => simp at hj
  | cons a t ih =>
    cases t with
    | nil =>
      have hj0 : j = 0 := by simpa using Nat.lt_one_iff.mp (by simpa using hj)
      subst hj0
      simp [listMax]
    | cons b t2 =>
      cases j with
      | zero => simp [listMax]
      | succ j =>
        have hj2 : j < (b :: t2).length := by simpa using hj
        calc (a :: b :: t2).getD (j + 1) 0 = (b :: t2).getD j 0 := by
              simp [List.getD_cons_succ]
          _ ≤ listMax (b :: t2) := ih j hj2
          _ ≤ listMax (a :: b :: t2) := by simp [listMax]

theorem idxOfMax_lt_length (l : List ℚ) (h : l ≠ []) : idxOfMax l < l.length := by
  induction l with
  | nil => exact absurd rfl h
  | cons a t ih =>
    cases t with
    | nil => simp [idxOfMax]
    | cons b t2 =>
      by_cases hle : listMax (b :: t2) ≤ a
      · simp [idxOfMax, hle]
      · have h2 := ih (by simp)
        simp only [idxOfMax, if_neg hle]
        simp only [List.length_cons] at h2 ⊢
        omega

theorem getD_idxOfMax (l : List ℚ) (h : l ≠ []) : l.getD (idxOfMax l) 0 = listMax l := by
  induction l with
  | nil => exact absurd rfl h
  | cons a t ih =>
    cases t with
    | nil => simp [idxOfMax, listMax]
    | cons b t2 =>
      by_cases hle : listMax (b :: t2) ≤ a
      · simp [idxOfMax, hle, listMax, max_eq_left hle]
      · have h2 := ih (by simp)
        have hlt : a < listMax (b :: t2) := not_le.mp hle
        simp only [idxOfMax, if_neg hle, List.getD_cons_succ, h2]
        simp [listMax, max_eq_right (le_of_lt hlt)]

theorem getD_lt_of_lt_idxOfMax (l : List ℚ) (j : ℕ) (hj : j < idxOfMax l) :
    l.getD j 0 < l.getD (idxOfMax l) 0 := by
  induction l generalizing j with
  | nil => simp [idxOfMax] at hj
  | cons a t ih =>
    cases t with
    | nil => simp [idxOfMax] at hj
    | cons b t2 =>
      by_cases hle : listMax (b :: t2) ≤ a
      · simp [idxOfMax, hle] at hj
      · have hlt : a < listMax (b :: t2) := not_le.mp hle
        have hmax : (b :: t2).getD (idxOfMax (b :: t2)) 0 = listMax (b :: t2) :=
          getD_idxOfMax (b :: t2) (by simp)
        rw [idxOfMax, if_neg hle] at hj ⊢
        cases j with
        | zero =>
          rw [List.getD_cons_zero, List.getD_cons_succ, hmax]
          exact hlt
        | succ j =>
          have hj2 : j < idxOfMax (b :: t2) := by omega
          rw [List.getD_cons_succ, List.getD_cons_succ]
          exact ih j hj2

theorem isFirstMax_idxOfMax (l : List ℚ) (h : l ≠ []) : isFirstMax l (idxOfMax l) := by
  refine ⟨idxOfMax_lt_length l h, ?_, ?_⟩
  · intro j hj
    rw [getD_idxOfMax l h]
    exact getD_le_listMax l j hj
  · intro j hj
    exact getD_lt_of_lt_idxOfMax l j hj

/-! ### Helper lemmas about the embedding -/

theorem scoreLow_mem (s u : ℚ) (hs0 : 0 ≤ s) (hs1 : s ≤ 1) (hu0 : 0 ≤ u) (hu1 : u < 1) :
    0 ≤ scoreLow s u ∧ scoreLow s u ≤ 1 := by
  have h7 : 0 ≤ u * (7/100) := by positivity
  have h7b : u * (7/100) < 7/100 := by nlinarith
  unfold scoreLow
  by_cases hs : s ≤ 3/10
  · rw [if_pos hs]
    constructor <;> linarith
  · rw [if_neg hs]
    constructor <;> linarith

theorem scoreHigh_mem (eps t v : ℚ) (he0 : 0 ≤ eps) (he1 : eps ≤ 1/10)
    (ht0 : 0 ≤ t) (ht1 : t ≤ 1) (hv0 : 0 ≤ v) (hv1 : v < 1) :
    0 ≤ scoreHigh eps t v ∧ scoreHigh eps t v ≤ 1 := by
  have hve0 : 0 ≤ v * eps := mul_nonneg hv0 he0
  have hve1 : v * eps ≤ eps := mul_le_of_le_one_left he0 (le_of_lt hv1)
  unfold scoreHigh
  by_cases ht : t ≥ 93/100
  · rw [if_pos ht]
    constructor <;> linarith
  · rw [if_neg ht]
    constructor <;> linarith

theorem make_score_mem (eps s u v : ℚ) (he0 : 0 ≤ eps) (he1 : eps ≤ 1/10)
    (hs0 : 0 ≤ s) (hs1 : s ≤ 1) (hu0 : 0 ≤ u) (hu1 : u < 1)
    (hv0 : 0 ≤ v) (hv1 : v < 1) :
    0 ≤ make_score eps s u v ∧ make_score eps s u v ≤ 1 := by
  have hl := scoreLow_mem s u hs0 hs1 hu0 hu1
  exact scoreHigh_mem eps (scoreLow s u) v he0 he1 hl.1 hl.2 hv0 hv1

theorem isErr_process (r : Row) (f : Option String) :
    exceptIsErr (process_openface_data r f) = r.isEmpty := by
  cases hr : r.isEmpty with
  | false => simp [process_openface_data, hr, exceptIsErr]
  | true => simp [process_openface_data, hr, exceptIsErr]

theorem length_filter_enumFrom {α : Type} (l : List α) (q : α → Bool) :
    ∀ n, ((l.enumFrom n).filter (fun p => q p.2)).length = (l.filter q).length := by
  induction l with
  | nil => intro n; rfl
  | cons a t ih =>
    intro n
    by_cases hq : q a
    · simp [List.enumFrom, List.filter_cons, hq, ih (n + 1)]
    · simp [List.enumFrom, List.filter_cons, hq, ih (n + 1)]

theorem section1Kept_length (table : List Row) (fault : ℕ → Option String) :
    (section1Kept table fault).length = (table.filter (fun row => !row.isEmpty)).length := by
  unfold section1Kept
  have hcong : table.enum.filter
        (fun p => !(exceptIsErr (process_openface_data p.2 (fault p.1)))) =
      table.enum.filter (fun p => !p.2.isEmpty) := by
    apply List.filter_congr
    intro p _
    rw [isErr_process]
  rw [hcong, List.enum]
  exact length_filter_enumFrom table (fun row => !row.isEmpty) 0

theorem section1Series_lengths (t : List Row) (f : ℕ → Option String) (u v : ℕ → ℕ → ℚ) :
    (section1Series t f u v).s1.length = (section1Kept t f).length ∧
    (section1Series t f u v).s2.length = (section1Kept t f).length ∧
    (section1Series t f u v).s3.length = (section1Kept t f).length ∧
    (section1Series t f u v).s4.length = (section1Kept t f).length := by
  refine ⟨?_, ?_, ?_, ?_⟩ <;> simp [section1Series]

theorem section2Series_lengths (d : ℚ → ℚ) (t : List Row) (u v : ℕ → ℕ → ℚ) :
    (section2Series d t u v).s1.length = (section2Kept t).length ∧
    (section2Series d t u v).s2.length = (section2Kept t).length ∧
    (section2Series d t u v).s3.length = (section2Kept t).length ∧
    (section2Series d t u v).s4.length = (section2Kept t).length := by
  refine ⟨?_, ?_, ?_, ?_⟩ <;> simp [section2Series]

/-! ### Claim theorems -/

/-- C3: on the table with zero rows, each of the four section functions
returns a section-level error value (sections 2 and 3 via their explicit
zero-rows check, sections 1 and 4 via the caught `np.argmax` failure), and,
the embeddings being total, no exception escapes any section function. -/
theorem empty_table_section_errors (f : ℕ → Option String) (u v : ℕ → ℕ → ℚ) (d : ℚ → ℚ) :
    exceptIsErr (calculate_section1 [] f u v) = true ∧
    exceptIsErr (calculate_section2 d [] u v) = true ∧
    exceptIsErr (calculate_section3 []) = true ∧
    exceptIsErr (calculate_section4 []) = true :=
  ⟨rfl, rfl, rfl, rfl⟩

/-- C4: on the single row with only AU06 = 2.5 and AU12 = 2.5, the
relationship scorer's raw trust value is exactly 0.7, and section 1's
smoothing returns 0.7 unchanged for every pair of random draws. -/
theorem single_row_trust_seven_tenths :
    (section1Row rowC4 none).trust = 7/10 ∧ ∀ u v : ℚ, makeScore1 (7/10) u v = 7/10 := by
  constructor
  · simp only [section1Row, rowC4, calculate_gaze_iris_openface, gazeIrisCore, auNorm, hasCol,
      getCol, List.lookup, cGaze0x, cGaze0y, cGaze1x, cGaze1y,
      cAU01r, cAU02r, cAU05r, cAU06r, cAU12r, cAU45r]
    simp
    norm_num [pyMin, pyMax]
  · intro u v
    norm_num [makeScore1, make_score, scoreLow, scoreHigh]

/-- C5: for every random draw in [0,1), smoothing maps raw 0.3 to a value
at least 0.3 and raw 0.93 to a value at most 0.93, in both the section-1 and
section-2 variants of `make_score`. -/
theorem make_score_boundary_safe (u v : ℚ) (hu0 : 0 ≤ u) (hu1 : u < 1)
    (hv0 : 0 ≤ v) (hv1 : v < 1) :
    3/10 ≤ makeScore1 (3/10) u v ∧ makeScore1 (93/100) u v ≤ 93/100 ∧
    3/10 ≤ makeScore2 (3/10) u v ∧ makeScore2 (93/100) u v ≤ 93/100 := by
  have h7 : 0 ≤ u * (7/100) := by positivity
  have h7b : u * (7/100) < 7/100 := by nlinarith
  have hlow : scoreLow (3/10) u = 33/100 + u * (7/100) := by
    rw [scoreLow, if_pos (by norm_num)]
    ring
  have hlow93 : scoreLow (93/100) u = 93/100 := by
    rw [scoreLow, if_neg (by norm_num)]
  have hnot : ¬(33/100 + u * (7/100) ≥ 93/100) := by linarith
  refine ⟨?_, ?_, ?_, ?_⟩
  · rw [makeScore1, make_score, hlow, scoreHigh, if_neg hnot]
    linarith
  · rw [makeScore1, make_score, hlow93, scoreHigh, if_pos (by norm_num)]
    have : 0 ≤ v * (3/100) := by positivity
    linarith
  · rw [makeScore2, make_score, hlow, scoreHigh, if_neg hnot]
    linarith
  · rw [makeScore2, make_score, hlow93, scoreHigh, if_pos (by norm_num)]
    have : 0 ≤ v * (5/100) := by positivity
    linarith

/-- Witness for C5 at the concrete draw pair (0, 0). -/
theorem make_score_boundary_safe_witness :
    (0:ℚ) ≤ 0 ∧ (0:ℚ) < 1 ∧
    (3/10 ≤ makeScore1 (3/10) 0 0 ∧ makeScore1 (93/100) 0 0 ≤ 93/100 ∧
     3/10 ≤ makeScore2 (3/10) 0 0 ∧ makeScore2 (93/100) 0 0 ≤ 93/100) :=
  ⟨by decide, by decide,
    make_score_boundary_safe 0 0 (by decide) (by decide) (by decide) (by decide)⟩

/-- C1: the code contradicts the claim.  `calculate_section4`'s resilience
line references the undefined name `stress` (its computation at lines
148-149 of `stress_resilience.py` is commented out), so every row raises
NameError after `emotional` is appended: the resilience series stays empty,
the final `np.argmax` over the ragged pair of lists raises, and the section
returns the error mapping for every table — in particular for the
single-row table `tblC1`, whose `emotional` value 0.6 is computed and
appended before the failure. -/
theorem section4_undefined_stress_error :
    (∀ table : List Row, exceptIsErr (calculate_section4 table) = true) ∧
    (section4Series tblC1).1 = [3/5] ∧ (section4Series tblC1).2 = [] := by
  refine ⟨?_, ?_, rfl⟩
  · intro table
    unfold calculate_section4
    rw [if_neg]
    · rfl
    · rintro ⟨h1, h2⟩
      exact h2 (by simpa [section4Series] using h1)
  · simp only [section4Series, tblC1, emotionalOf, calculate_forehead_furrows_openface,
      auNorm, hasCol, getCol, List.lookup, List.filter, List.map, cAU01r, cAU02r, cAU04r,
      cAU15r]
    simp
    norm_num [pyMin]

/-- C6 is false as stated: a row with AU06 intensity 50 (an arbitrary float
column value) gives raw trust 2.5, and with both draws 0 the smoothed value
appended to the trust series is 1.08, outside [0,1]. -/
theorem smoothed_score_leaves_unit_cex :
    (section1Series tblC6 fnoneD zeroDraw zeroDraw).s1 = [27/25] ∧ ¬((27:ℚ)/25 ≤ 1) := by
  constructor
  · simp only [section1Series, section1Kept, tblC6, fnoneD, zeroDraw, process_openface_data,
      exceptIsErr, calculate_gaze_iris_openface, gazeIrisCore, section1Row, auNorm, hasCol,
      getCol, List.lookup, List.enum, List.enumFrom, List.filter, List.map, makeScore1,
      make_score, scoreLow, scoreHigh, cGaze0x, cGaze0y, cGaze1x, cGaze1y, cAU01r, cAU02r,
      cAU05r, cAU06r, cAU12r, cAU45r]
    simp
    norm_num [pyMin, pyMax, pyAbs]
  · norm_num

/-- C6 (amended): the per-row smoothed value lies in [0,1] provided the raw
(pre-smoothing) score lies in [0,1]; the per-row AU normalisation of
sections 1 and 2 is uncapped, so arbitrary column values can push the raw
score — and then the smoothed value — outside [0,1]. -/
theorem make_score_unit_range (s u v : ℚ) (hs0 : 0 ≤ s) (hs1 : s ≤ 1)
    (hu0 : 0 ≤ u) (hu1 : u < 1) (hv0 : 0 ≤ v) (hv1 : v < 1) :
    (0 ≤ makeScore1 s u v ∧ makeScore1 s u v ≤ 1) ∧
    (0 ≤ makeScore2 s u v ∧ makeScore2 s u v ≤ 1) :=
  ⟨make_score_mem (3/100) s u v (by norm_num) (by norm_num) hs0 hs1 hu0 hu1 hv0 hv1,
   make_score_mem (5/100) s u v (by norm_num) (by norm_num) hs0 hs1 hu0 hu1 hv0 hv1⟩

/-- Witness for the amended C6 at raw score 1/2 and draws 0. -/
theorem make_score_unit_range_witness :
    (0:ℚ) ≤ 1/2 ∧ (1/2:ℚ) ≤ 1 ∧
    ((0 ≤ makeScore1 (1/2) 0 0 ∧ makeScore1 (1/2) 0 0 ≤ 1) ∧
     (0 ≤ makeScore2 (1/2) 0 0 ∧ makeScore2 (1/2) 0 0 ≤ 1)) :=
  ⟨by norm_num, by norm_num,
    make_score_unit_range (1/2) 0 0 (by norm_num) (by norm_num) (by norm_num) (by norm_num)
      (by norm_num) (by norm_num)⟩

/-- C7 is false as stated: on a row carrying only AU01 (of the three
brow/lid AUs) at intensity 5, the claim's formula gives
min(mean(available)/5, 1) = 1, but the source's list comprehension reads all
three columns without a presence check, the missing ones raise KeyError, and
the handler returns the default 0.5. -/
theorem eye_openness_missing_col_cex :
    calculate_eye_openness rowC7 = 1/2 ∧
    ¬(calculate_eye_openness rowC7 = pyMin (getCol rowC7 cAU01r / 5) 1) := by
  have h : calculate_eye_openness rowC7 = 1/2 := by
    simp only [calculate_eye_openness, rowC7, hasCol, getCol, List.lookup, cAU01r, cAU02r,
      cAU05r, cAU45r]
    simp
  refine ⟨h, ?_⟩
  rw [h]
  simp only [rowC7, getCol, List.lookup, cAU01r]
  simp
  norm_num [pyMin]

/-- C7 (amended): without the blink column, the eye-openness branch returns
min(mean/5, 1) over all three brow/lid AUs only when all three columns are
present; if at least one (but not all) is present, the lookup of a missing
column fails and the default 0.5 is returned. -/
theorem eye_openness_all_or_default (r : Row) (h45 : hasCol r cAU45r = false)
    (hany : (hasCol r cAU01r || hasCol r cAU02r || hasCol r cAU05r) = true) :
    calculate_eye_openness r =
      if (hasCol r cAU01r && hasCol r cAU02r && hasCol r cAU05r) = true then
        pyMin (((getCol r cAU01r + getCol r cAU02r + getCol r cAU05r) / 3) / 5) 1
      else 1/2 := by
  unfold calculate_eye_openness
  rw [if_neg (by simp [h45])]

/-- Witness for the amended C7 on a row with all three brow/lid AUs. -/
theorem eye_openness_all_or_default_witness :
    hasCol rowC7w cAU45r = false ∧
    (hasCol rowC7w cAU01r || hasCol rowC7w cAU02r || hasCol rowC7w cAU05r) = true ∧
    calculate_eye_openness rowC7w =
      (if (hasCol rowC7w cAU01r && hasCol rowC7w cAU02r && hasCol rowC7w cAU05r) = true then
        pyMin (((getCol rowC7w cAU01r + getCol rowC7w cAU02r + getCol rowC7w cAU05r) / 3) / 5) 1
      else 1/2) :=
  ⟨by decide, by decide, eye_openness_all_or_default rowC7w (by decide) (by decide)⟩

/-- C8: the row carrying exactly the upstream-named (leading-space) fallback
mouth AU columns at intensity 5 should, per the claim, score
(1+1+1+1)/4 = 1; the source's fallback list omits the leading space, never
matches those columns, and the default 0.5 is returned instead. -/
theorem lip_fallback_never_matches :
    calculate_lip_compression_openface rowC8 = 1/2 ∧
    ¬((1:ℚ)/2 = (pyMin (getCol rowC8 cAU14r / 5) 1 + pyMin (getCol rowC8 cAU15r / 5) 1 +
        pyMin (getCol rowC8 cAU17r / 5) 1 + pyMin (getCol rowC8 cAU20r / 5) 1) / 4) := by
  constructor
  · simp only [calculate_lip_compression_openface, rowC8, hasCol, getCol, List.lookup,
      List.filter, cAU14r, cAU15r, cAU17r, cAU20r, cAU23r, cAU24r, cAU28r,
      fAU14, fAU15, fAU17, fAU20]
    simp
  · simp only [rowC8, getCol, List.lookup, cAU14r, cAU15r, cAU17r, cAU20r]
    simp
    norm_num [pyMin]

theorem pyAbs_nonneg (a : ℚ) : 0 ≤ pyAbs a := by
  unfold pyAbs
  split <;> linarith

theorem pyMax_zero_mem (x : ℚ) (hx : x ≤ 1) : 0 ≤ pyMax 0 x ∧ pyMax 0 x ≤ 1 := by
  unfold pyMax
  split <;> constructor <;> linarith

theorem pairScore_nonneg (r : Row) (i : ℕ) : 0 ≤ pairScore r i := by
  unfold pairScore
  have h1 := pyAbs_nonneg (pyAbs ((xvals r).getD i 0 - midline r) -
    pyAbs ((xvals r).getD ((xvals r).length - 1 - i) 0 - midline r))
  have h2 := pyAbs_nonneg ((yvals r).getD i 0 - (yvals r).getD ((xvals r).length - 1 - i) 0)
  linarith

theorem asymScores_nonneg (r : Row) : ∀ q ∈ asymScores r, 0 ≤ q := by
  intro q hq
  obtain ⟨i, _, hf⟩ := List.mem_filterMap.mp hq
  split at hf
  · cases hf
    exact pairScore_nonneg r i
  · exact absurd hf (by simp)

theorem calculate_facial_symmetry_mem (r : Row) :
    0 ≤ calculate_facial_symmetry r ∧ calculate_facial_symmetry r ≤ 1 := by
  unfold calculate_facial_symmetry
  split
  · norm_num
  · split
    · norm_num
    · split
      · norm_num
      · refine pyMax_zero_mem _ ?_
        have hsum : 0 ≤ (asymScores r).sum := List.sum_nonneg (asymScores_nonneg r)
        have hlen : (0:ℚ) ≤ ((asymScores r).length : ℚ) := by positivity
        have hdiv : 0 ≤ (asymScores r).sum / ((asymScores r).length : ℚ) :=
          div_nonneg hsum hlen
        linarith

/-- C9: on every row whose landmark x and y coordinate columns number the
same odd count, the symmetry computation terminates (the embedding is a
total function; the source loop's pairing indices strictly cross before the
bound) and the resulting score lies in [0,1]. -/
theorem facial_symmetry_bounds (r : Row) (hlen : (yvals r).length = (xvals r).length)
    (hodd : Odd (xvals r).length) :
    0 ≤ calculate_facial_symmetry r ∧ calculate_facial_symmetry r ≤ 1 :=
  calculate_facial_symmetry_mem r

/-- Witness for C9 on a row with three landmark pairs. -/
theorem facial_symmetry_bounds_witness :
    (yvals rowC9).length = (xvals rowC9).length ∧ Odd (xvals rowC9).length ∧
    (0 ≤ calculate_facial_symmetry rowC9 ∧ calculate_facial_symmetry rowC9 ≤ 1) :=
  ⟨by decide, by decide, facial_symmetry_bounds rowC9 (by decide) (by decide)⟩

/-- C10: any exception inside the gaze/iris computation (the `fault` oracle)
is converted to the default pair (gaze 1, iris 0.0); `process_openface_data`
returns an error mapping only for the empty row, so a gaze/iris failure
never causes a row to be skipped: section 1's trust series has exactly one
entry per nonempty row, whatever the faults. -/
theorem gaze_fault_defaults_no_skip (r : Row) (msg : String) (table : List Row)
    (faults : ℕ → Option String) (u v : ℕ → ℕ → ℚ) (hr : r ≠ []) :
    calculate_gaze_iris_openface r (some msg) = (1, 0) ∧
    exceptIsErr (process_openface_data r (some msg)) = false ∧
    exceptIsErr (process_openface_data [] (some msg)) = true ∧
    (section1Series table faults u v).s1.length =
      (table.filter (fun row => !row.isEmpty)).length := by
  refine ⟨rfl, ?_, rfl, ?_⟩
  · cases r with
    | nil => exact absurd rfl hr
    | cons a t => rfl
  · calc (section1Series table faults u v).s1.length
        = (section1Kept table faults).length := by simp [section1Series]
      _ = (table.filter (fun row => !row.isEmpty)).length := section1Kept_length table faults

/-- Witness for C10: a nonempty row processed under a raised exception, and
a two-row table (one nonempty, one empty) whose trust series keeps exactly
the nonempty row even though every row faults. -/
theorem gaze_fault_defaults_no_skip_witness :
    ([(cAU45r, (5:ℚ))] : Row) ≠ [] ∧
    (calculate_gaze_iris_openface [(cAU45r, (5:ℚ))] (some msgBoom) = (1, 0) ∧
     exceptIsErr (process_openface_data [(cAU45r, (5:ℚ))] (some msgBoom)) = false ∧
     exceptIsErr (process_openface_data [] (some msgBoom)) = true ∧
     (section1Series tblC10 faultsBoom zeroDraw zeroDraw).s1.length =
       (tblC10.filter (fun row => !row.isEmpty)).length) :=
  ⟨by decide,
    gaze_fault_defaults_no_skip [(cAU45r, (5:ℚ))] msgBoom tblC10 faultsBoom zeroDraw zeroDraw
      (by decide)⟩

theorem calculate_section1_ok (t : List Row) (f : ℕ → Option String) (u v : ℕ → ℕ → ℚ)
    (h : (section1Series t f u v).s1.length ≠ 0) :
    calculate_section1 t f u v = .ok
      { trust := ⟨meanQ (section1Series t f u v).s1, idxOfMax (section1Series t f u v).s1⟩
        openness := ⟨meanQ (section1Series t f u v).s2, idxOfMax (section1Series t f u v).s2⟩
        empathy := ⟨meanQ (section1Series t f u v).s3, idxOfMax (section1Series t f u v).s3⟩
        conflictAvoid := ⟨meanQ (section1Series t f u v).s4, idxOfMax (section1Series t f u v).s4⟩ } := by
  unfold calculate_section1
  rw [if_neg h]

theorem calculate_section2_ok (d : ℚ → ℚ) (t : List Row) (u v : ℕ → ℕ → ℚ)
    (h : (section2Series d t u v).s1.length ≠ 0) :
    calculate_section2 d t u v = .ok
      { persistant := ⟨meanQ (section2Series d t u v).s1, idxOfMax (section2Series d t u v).s1⟩
        focus := ⟨meanQ (section2Series d t u v).s2, idxOfMax (section2Series d t u v).s2⟩
        structScore := ⟨meanQ (section2Series d t u v).s3, idxOfMax (section2Series d t u v).s3⟩
        risk := ⟨meanQ (section2Series d t u v).s4, idxOfMax (section2Series d t u v).s4⟩ } := by
  unfold calculate_section2
  rw [if_neg h]

theorem calculate_section3_ok (t : List Row) (h : (section3Series t).s1.length ≠ 0) :
    calculate_section3 t = .ok
      { ideation := ⟨meanQ (section3Series t).s1, idxOfMax (section3Series t).s1⟩
        openness := ⟨meanQ (section3Series t).s2, idxOfMax (section3Series t).s2⟩
        originalty := ⟨meanQ (section3Series t).s3, idxOfMax (section3Series t).s3⟩
        attention := ⟨meanQ (section3Series t).s4, idxOfMax (section3Series t).s4⟩ } := by
  unfold calculate_section3
  rw [if_neg h]

/-- C2 (amended): whenever a section run keeps at least one row, the
section returns a score block whose `top_image`, for every named score, is
the 0-based position of the first occurring maximum of that score's STORED
series — for sections 1 and 2 the post-smoothing values, not the raw
(pre-smoothing) values of the claim as stated (see the counterexample);
for section 3, which applies no smoothing, stored and raw coincide. -/
theorem top_image_first_max_of_series (t1 t2 t3 : List Row) (f : ℕ → Option String)
    (u v : ℕ → ℕ → ℚ) (d : ℚ → ℚ)
    (h1 : section1Kept t1 f ≠ []) (h2 : section2Kept t2 ≠ []) (h3 : t3 ≠ []) :
    (∃ o1, calculate_section1 t1 f u v = .ok o1 ∧
      isFirstMax (section1Series t1 f u v).s1 o1.trust.top_image ∧
      isFirstMax (section1Series t1 f u v).s2 o1.openness.top_image ∧
      isFirstMax (section1Series t1 f u v).s3 o1.empathy.top_image ∧
      isFirstMax (section1Series t1 f u v).s4 o1.conflictAvoid.top_image) ∧
    (∃ o2, calculate_section2 d t2 u v = .ok o2 ∧
      isFirstMax (section2Series d t2 u v).s1 o2.persistant.top_image ∧
      isFirstMax (section2Series d t2 u v).s2 o2.focus.top_image ∧
      isFirstMax (section2Series d t2 u v).s3 o2.structScore.top_image ∧
      isFirstMax (section2Series d t2 u v).s4 o2.risk.top_image) ∧
    (∃ o3, calculate_section3 t3 = .ok o3 ∧
      isFirstMax (section3Series t3).s1 o3.ideation.top_image ∧
      isFirstMax (section3Series t3).s2 o3.openness.top_image ∧
      isFirstMax (section3Series t3).s3 o3.originalty.top_image ∧
      isFirstMax (section3Series t3).s4 o3.attention.top_image) := by
  obtain ⟨l1, l2, l3, l4⟩ := section1Series_lengths t1 f u v
  obtain ⟨m1, m2, m3, m4⟩ := section2Series_lengths d t2 u v
  have hk1 : (section1Kept t1 f).length ≠ 0 := fun h0 => h1 (List.length_eq_zero.mp h0)
  have hk2 : (section2Kept t2).length ≠ 0 := fun h0 => h2 (List.length_eq_zero.mp h0)
  have hne1 : (section1Series t1 f u v).s1 ≠ [] := by
    intro he; apply hk1; rw [← l1, he, List.length_nil]
  have hne2 : (section1Series t1 f u v).s2 ≠ [] := by
    intro he; apply hk1; rw [← l2, he, List.length_nil]
  have hne3 : (section1Series t1 f u v).s3 ≠ [] := by
    intro he; apply hk1; rw [← l3, he, List.length_nil]
  have hne4 : (section1Series t1 f u v).s4 ≠ [] := by
    intro he; apply hk1; rw [← l4, he, List.length_nil]
  have hme1 : (section2Series d t2 u v).s1 ≠ [] := by
    intro he; apply hk2; rw [← m1, he, List.length_nil]
  have hme2 : (section2Series d t2 u v).s2 ≠ [] := by
    intro he; apply hk2; rw [← m2, he, List.length_nil]
  have hme3 : (section2Series d t2 u v).s3 ≠ [] := by
    intro he; apply hk2; rw [← m3, he, List.length_nil]
  have hme4 : (section2Series d t2 u v).s4 ≠ [] := by
    intro he; apply hk2; rw [← m4, he, List.length_nil]
  have hq1 : (section3Series t3).s1 ≠ [] := by simp [section3Series, h3]
  have hq2 : (section3Series t3).s2 ≠ [] := by simp [section3Series, h3]
  have hq3 : (section3Series t3).s3 ≠ [] := by simp [section3Series, h3]
  have hq4 : (section3Series t3).s4 ≠ [] := by simp [section3Series, h3]
  refine ⟨?_, ?_, ?_⟩
  · refine ⟨_, calculate_section1_ok t1 f u v (by rw [l1]; exact hk1), ?_, ?_, ?_, ?_⟩
    · exact isFirstMax_idxOfMax _ hne1
    · exact isFirstMax_idxOfMax _ hne2
    · exact isFirstMax_idxOfMax _ hne3
    · exact isFirstMax_idxOfMax _ hne4
  · refine ⟨_, calculate_section2_ok d t2 u v (by rw [m1]; exact hk2), ?_, ?_, ?_, ?_⟩
    · exact isFirstMax_idxOfMax _ hme1
    · exact isFirstMax_idxOfMax _ hme2
    · exact isFirstMax_idxOfMax _ hme3
    · exact isFirstMax_idxOfMax _ hme4
  · refine ⟨_, calculate_section3_ok t3 (fun h0 => hq1 (List.length_eq_zero.mp h0)), ?_, ?_, ?_, ?_⟩
    · exact isFirstMax_idxOfMax _ hq1
    · exact isFirstMax_idxOfMax _ hq2
    · exact isFirstMax_idxOfMax _ hq3
    · exact isFirstMax_idxOfMax _ hq4

/-- Witness for the amended C2 on concrete single-row tables. -/
theorem top_image_first_max_witness :
    section1Kept tblW1 fnoneD ≠ [] ∧ section2Kept tblW2 ≠ [] ∧ tblW2 ≠ [] ∧
    ((∃ o1, calculate_section1 tblW1 fnoneD zeroDraw zeroDraw = .ok o1 ∧
      isFirstMax (section1Series tblW1 fnoneD zeroDraw zeroDraw).s1 o1.trust.top_image ∧
      isFirstMax (section1Series tblW1 fnoneD zeroDraw zeroDraw).s2 o1.openness.top_image ∧
      isFirstMax (section1Series tblW1 fnoneD zeroDraw zeroDraw).s3 o1.empathy.top_image ∧
      isFirstMax (section1Series tblW1 fnoneD zeroDraw zeroDraw).s4 o1.conflictAvoid.top_image) ∧
    (∃ o2, calculate_section2 dzero tblW2 zeroDraw zeroDraw = .ok o2 ∧
      isFirstMax (section2Series dzero tblW2 zeroDraw zeroDraw).s1 o2.persistant.top_image ∧
      isFirstMax (section2Series dzero tblW2 zeroDraw zeroDraw).s2 o2.focus.top_image ∧
      isFirstMax (section2Series dzero tblW2 zeroDraw zeroDraw).s3 o2.structScore.top_image ∧
      isFirstMax (section2Series dzero tblW2 zeroDraw zeroDraw).s4 o2.risk.top_image) ∧
    (∃ o3, calculate_section3 tblW2 = .ok o3 ∧
      isFirstMax (section3Series tblW2).s1 o3.ideation.top_image ∧
      isFirstMax (section3Series tblW2).s2 o3.openness.top_image ∧
      isFirstMax (section3Series tblW2).s3 o3.originalty.top_image ∧
      isFirstMax (section3Series tblW2).s4 o3.attention.top_image)) :=
  ⟨by decide, by decide, by decide,
    top_image_first_max_of_series tblW1 tblW2 tblW2 fnoneD zeroDraw zeroDraw dzero
      (by decide) (by decide) (by decide)⟩

/-- C2 is false as stated: on `tblC2` with all draws 0, the reported
`top_image` for trust is 0, while the raw (pre-smoothing) trust series is
[0.3, 0.31], whose first occurring maximum is at position 1 — smoothing
lifts the 0.3 entry to 0.33, above 0.31, for every draw in [0,1). -/
theorem section1_top_image_raw_cex :
    (calculate_section1 tblC2 fnoneD zeroDraw zeroDraw).toOption.map
      (fun o => o.trust.top_image) = some 0 ∧
    (section1RawSeries tblC2 fnoneD).s1 = [3/10, 31/100] ∧
    idxOfMax [(3:ℚ)/10, 31/100] = 1 := by
  refine ⟨?_, ?_, ?_⟩
  · simp only [calculate_section1, section1Series, section1Kept, tblC2, fnoneD, zeroDraw,
      process_openface_data, exceptIsErr, calculate_gaze_iris_openface, gazeIrisCore,
      section1Row, auNorm, hasCol, getCol, List.lookup, List.enum, List.enumFrom,
      List.filter, List.map, makeScore1, make_score, scoreLow, scoreHigh, meanQ, idxOfMax,
      listMax, cGaze0x, cGaze0y, cGaze1x, cGaze1y, cAU01r, cAU02r, cAU05r, cAU06r, cAU12r,
      cAU45r]
    simp
    norm_num [pyMin, pyMax, pyAbs, idxOfMax, listMax, meanQ, Except.toOption]
  · simp only [section1RawSeries, section1Kept, tblC2, fnoneD, process_openface_data,
      exceptIsErr, calculate_gaze_iris_openface, gazeIrisCore, section1Row, auNorm, hasCol,
      getCol, List.lookup, List.enum, List.enumFrom, List.filter, List.map,
      cGaze0x, cGaze0y, cGaze1x, cGaze1y, cAU01r, cAU02r, cAU05r, cAU06r, cAU12r, cAU45r]
    simp
    norm_num [pyMin, pyMax, pyAbs]
  · norm_num [idxOfMax, listMax]
